import Mathlib

/-!
Verification of the data-proxy layer of `ga4gh/vr/extras/dataproxy.py`.

The Python source is shallowly embedded: every Python function that the
claims touch is translated into an executable Lean definition.  Python
exceptions crossing these functions are represented by the `PyErr`
inductive; fallible functions return `Except PyErr α`.  Backend and
transport behaviour (seqrepo handle, `requests.get`, `coerce_namespace`,
`isoformat`) are external collaborators and appear as function-valued
parameters, exactly at the points where the source calls them.
-/

namespace VRS

/-- Python exception kinds that cross the functions of `dataproxy.py`.
`keyError` carries the identifier argument (the source always raises
`KeyError(identifier)`); `httpError` carries the HTTP status code raised by
`requests.Response.raise_for_status`; `transportError` stands for transport
exceptions such as `requests.ConnectionError` that carry no status. -/
inductive PyErr where
  | keyError (identifier : String)
  | valueError (msg : String)
  | indexError
  | notImplementedError (msg : String)
  | httpError (status : Nat)
  | transportError (msg : String)
  | otherError (msg : String)
deriving DecidableEq, Repr

/-- The metadata record shape returned by `get_metadata` (spec section 3):
`length`, `alphabet`, `added`, `aliases`. -/
structure Metadata where
  length : Nat
  alphabet : String
  added : String
  aliases : List String
deriving DecidableEq, Repr

/-- The spec's error taxonomy (section 7), as the Python exception kinds
that realise it: `KeyError` is NotFound, `ValueError` is InvalidArgument,
`requests.HTTPError` (status-carrying) is RemoteError, and
`NotImplementedError` is NotImplemented.  Everything else is a
backend-specific failure shape outside the taxonomy. -/
def in_error_taxonomy : PyErr → Bool
  | .keyError _ => true
  | .valueError _ => true
  | .httpError _ => true
  | .notImplementedError _ => true
  | _ => false

/-- The exception classes caught by `translate_sequence_identifier`'s
`except (ValueError, KeyError, IndexError)` clause. -/
def is_lookup_failure : PyErr → Bool
  | .valueError _ => true
  | .keyError _ => true
  | .indexError => true
  | _ => false

/-- Body of `_DataProxy.translate_sequence_identifier` (the function wrapped
by `functools.lru_cache()`), with the backend `get_metadata` passed as a
parameter.  `list(set(md["aliases"]))` is modelled by `List.dedup`;
`a.startswith(nsd)` by `String.isPrefixOf nsd a`. -/
def translate_sequence_identifier (get_metadata : String → Except PyErr Metadata)
    (identifier : String) (nspace : Option String) : Except PyErr (List String) :=
  match get_metadata identifier with
  | .error e => if is_lookup_failure e then .error (.keyError identifier) else .error e
  | .ok md =>
    let aliases := md.aliases.dedup
    match nspace with
    | some ns =>
      let nsd := ns ++ ":"
      .ok (aliases.filter (fun a => nsd.isPrefixOf a))
    | none => .ok aliases

end VRS

namespace VRS

/-- C2: every lookup failure raised by the `get_metadata` call inside
`translate_sequence_identifier` — identifier not found (`KeyError`),
malformed identifier (`ValueError`), empty result (`IndexError`) — is
normalized to the single not-found error `KeyError(identifier)` carrying
the identifier; none of those failure kinds escapes as itself. -/
theorem c2_lookup_failures_normalized (gm : String → Except PyErr Metadata)
    (i : String) (ns : Option String) (e : PyErr)
    (h : gm i = .error e) (hl : is_lookup_failure e = true) :
    translate_sequence_identifier gm i ns = .error (.keyError i) := by
  unfold translate_sequence_identifier
  rw [h]
  simp [hl]

/-- Witness for C2 at a concrete backend that fails with `IndexError`
(an empty lookup result). -/
theorem c2_lookup_failures_normalized_witness :
    translate_sequence_identifier (fun _ => .error PyErr.indexError) "NM_000551.3" none
      = .error (.keyError "NM_000551.3") :=
  c2_lookup_failures_normalized (fun _ => .error PyErr.indexError)
    "NM_000551.3" none PyErr.indexError rfl rfl

/-- C3: when the lookup succeeds with record `md`,
`translate_sequence_identifier i none` returns all deduplicated aliases,
`translate_sequence_identifier i (some ns)` returns exactly those of them
whose text starts with `ns ++ ":"` (case-sensitive string prefix), and both
returned lists are duplicate-free. -/
theorem c3_namespace_filter (gm : String → Except PyErr Metadata)
    (i ns : String) (md : Metadata) (h : gm i = .ok md) :
    translate_sequence_identifier gm i none = .ok md.aliases.dedup ∧
    translate_sequence_identifier gm i (some ns)
      = .ok (md.aliases.dedup.filter (fun a => (ns ++ ":").isPrefixOf a)) ∧
    md.aliases.dedup.Nodup ∧
    (md.aliases.dedup.filter (fun a => (ns ++ ":").isPrefixOf a)).Nodup := by
  refine ⟨?_, ?_, md.aliases.nodup_dedup, (md.aliases.nodup_dedup).filter _⟩
  · unfold translate_sequence_identifier
    rw [h]
  · unfold translate_sequence_identifier
    rw [h]

/-- Witness for C3 at a concrete backend whose record holds a duplicated
alias list; the namespace filter keeps exactly the `ga4gh:`-prefixed alias. -/
theorem c3_namespace_filter_witness :
    translate_sequence_identifier
        (fun _ => .ok { length := 4560, alphabet := "ACGT", added := "",
                        aliases := ["refseq:NM_000551.3", "ga4gh:SQ.v_QTc1p", "refseq:NM_000551.3"] })
        "NM_000551.3" none
      = .ok (["refseq:NM_000551.3", "ga4gh:SQ.v_QTc1p", "refseq:NM_000551.3"] : List String).dedup ∧
    translate_sequence_identifier
        (fun _ => .ok { length := 4560, alphabet := "ACGT", added := "",
                        aliases := ["refseq:NM_000551.3", "ga4gh:SQ.v_QTc1p", "refseq:NM_000551.3"] })
        "NM_000551.3" (some "ga4gh")
      = .ok ((["refseq:NM_000551.3", "ga4gh:SQ.v_QTc1p", "refseq:NM_000551.3"] : List String).dedup.filter
          (fun a => ("ga4gh" ++ ":").isPrefixOf a)) ∧
    (["refseq:NM_000551.3", "ga4gh:SQ.v_QTc1p", "refseq:NM_000551.3"] : List String).dedup.Nodup ∧
    ((["refseq:NM_000551.3", "ga4gh:SQ.v_QTc1p", "refseq:NM_000551.3"] : List String).dedup.filter
      (fun a => ("ga4gh" ++ ":").isPrefixOf a)).Nodup :=
  c3_namespace_filter
    (fun _ => .ok { length := 4560, alphabet := "ACGT", added := "",
                    aliases := ["refseq:NM_000551.3", "ga4gh:SQ.v_QTc1p", "refseq:NM_000551.3"] })
    "NM_000551.3" "ga4gh" _ rfl

end VRS

namespace VRS

/-- Cache key of the `functools.lru_cache()` wrapper on
`translate_sequence_identifier`: the exact argument pair
`(identifier, namespace)` (per proxy instance; `self` is a fixed key
component for a given instance and is left implicit). -/
abbrev CacheKey := String × Option String

/-- The lru_cache state: entries ordered by recency, most recent first. -/
abbrev TransCache := List (CacheKey × List String)

/-- `functools.lru_cache()` is called with no arguments in the source, so
its `maxsize` parameter takes its default value, 128. -/
def lru_maxsize : Nat := 128

/-- Cache lookup. -/
def cache_get : TransCache → CacheKey → Option (List String)
  | [], _ => none
  | (k', v) :: rest, k => if k' = k then some v else cache_get rest k

/-- Remove a key's entry (used when a hit moves the entry to the
most-recently-used position). -/
def cache_erase : TransCache → CacheKey → TransCache
  | [], _ => []
  | (k', v) :: rest, k => if k' = k then cache_erase rest k else (k', v) :: cache_erase rest k

/-- Insertion on a cache miss: the new entry becomes most recently used;
when the cache is full the least-recently-used entry is evicted, exactly as
`functools.lru_cache` does. -/
def cache_put (c : TransCache) (k : CacheKey) (v : List String) : TransCache :=
  (k, v) :: (if c.length < lru_maxsize then c else c.dropLast)

/-- One call through the `lru_cache`-wrapped `translate_sequence_identifier`:
returns the call result, the cache state after the call, and the number of
invocations of the wrapped body (each body invocation performs exactly one
backend `get_metadata` fetch).  On a hit the entry moves to the
most-recently-used position and the body is not invoked; on a miss the body
runs, and only a successful result is stored — `lru_cache` never caches a
raised exception. -/
def translate_cached (gm : String → Except PyErr Metadata) (c : TransCache)
    (identifier : String) (nspace : Option String) :
    Except PyErr (List String) × TransCache × Nat :=
  match cache_get c (identifier, nspace) with
  | some v => (.ok v, ((identifier, nspace), v) :: cache_erase c (identifier, nspace), 0)
  | none =>
    match translate_sequence_identifier gm identifier nspace with
    | .ok v => (.ok v, cache_put c (identifier, nspace) v, 1)
    | .error e => (.error e, c, 1)

/-- Run a sequence of cached-translation calls from an initial cache state,
counting how many times the wrapped body (hence the backend metadata fetch)
ran for the `target` argument pair. -/
def run_calls (gm : String → Except PyErr Metadata) (c0 : TransCache)
    (calls : List CacheKey) (target : CacheKey) : TransCache × Nat :=
  calls.foldl (fun acc k =>
    let r := translate_cached gm acc.1 k.1 k.2
    (r.2.1, acc.2 + (if k = target then r.2.2 else 0))) (c0, 0)

/-- A call history that defeats the bounded cache: the pair
`("NM_000551.3", none)`, then 128 distinct other pairs (which evict it),
then the same pair again. -/
def c1_calls : List CacheKey :=
  ("NM_000551.3", none) ::
    ((List.range lru_maxsize).map (fun n => ("NM_000551.3", some (toString n)))) ++
      [("NM_000551.3", none)]

theorem cache_erase_length_le (c : TransCache) (k : CacheKey) :
    (cache_erase c k).length ≤ c.length := by
  induction c with
  | nil => simp [cache_erase]
  | cons p rest ih =>
    obtain ⟨k', v⟩ := p
    by_cases hk : k' = k <;> simp [cache_erase, hk] <;> omega

theorem cache_erase_length_lt (c : TransCache) (k : CacheKey) (v : List String)
    (h : cache_get c k = some v) : (cache_erase c k).length < c.length := by
  induction c with
  | nil => simp [cache_get] at h
  | cons p rest ih =>
    obtain ⟨k', w⟩ := p
    by_cases hk : k' = k
    · have := cache_erase_length_le rest k
      simp [cache_erase, hk]
      omega
    · simp [cache_get, hk] at h
      have := ih h
      simp [cache_erase, hk]
      omega

end VRS

namespace VRS

set_option maxRecDepth 4000 in
/-- C1 counterexample: the claim says the backend metadata fetch runs at
most once per `(identifier, namespace)` pair and that the memoization cache
is unbounded.  With the `functools.lru_cache()` default `maxsize = 128`,
after 128 distinct other pairs the entry for `("NM_000551.3", none)` is
evicted, and the second call with that identical pair re-invokes the
backend: the fetch count for the pair over the history `c1_calls` is 2. -/
theorem c1_unbounded_cache_counterexample :
    (run_calls (fun _ => .ok { length := 0, alphabet := "", added := "", aliases := [] })
      [] c1_calls ("NM_000551.3", none)).2 = 2 := by decide

end VRS

namespace VRS

/-- C1 (amended): when a call through the cached
`translate_sequence_identifier` succeeds, an immediately following call
with the identical `(identifier, namespace)` pair is a cache hit: it
returns the same value and invokes the wrapped body (hence the backend
metadata fetch) zero times.  Moreover the cache is LRU-bounded: a call
never grows it beyond `lru_maxsize` (128) entries — entries expire only by
least-recently-used eviction, never by time. -/
theorem c1_memoized_until_evicted (gm : String → Except PyErr Metadata)
    (c : TransCache) (i : String) (ns : Option String) (v : List String)
    (h : (translate_cached gm c i ns).1 = .ok v) :
    (translate_cached gm (translate_cached gm c i ns).2.1 i ns).1 = .ok v ∧
    (translate_cached gm (translate_cached gm c i ns).2.1 i ns).2.2 = 0 ∧
    (c.length ≤ lru_maxsize → (translate_cached gm c i ns).2.1.length ≤ lru_maxsize) := by
  cases hg : cache_get c (i, ns) with
  | some w =>
    have h1 : translate_cached gm c i ns
        = (.ok w, ((i, ns), w) :: cache_erase c (i, ns), 0) := by
      unfold translate_cached
      rw [hg]
    rw [h1] at h
    have hv : w = v := by
      simpa using h
    subst hv
    have h2 : translate_cached gm (((i, ns), w) :: cache_erase c (i, ns)) i ns
        = (.ok w, ((i, ns), w) :: cache_erase (((i, ns), w) :: cache_erase c (i, ns)) (i, ns), 0) := by
      unfold translate_cached
      simp [cache_get]
    rw [h1, h2]
    refine ⟨rfl, rfl, fun hc => ?_⟩
    have := cache_erase_length_lt c (i, ns) w hg
    simp only [List.length_cons]
    omega
  | none =>
    cases ht : translate_sequence_identifier gm i ns with
    | error e =>
      have h1 : translate_cached gm c i ns = (.error e, c, 1) := by
        unfold translate_cached
        rw [hg, ht]
      rw [h1] at h
      exact absurd h (by simp)
    | ok u =>
      have h1 : translate_cached gm c i ns = (.ok u, cache_put c (i, ns) u, 1) := by
        unfold translate_cached
        rw [hg, ht]
      rw [h1] at h
      have hv : u = v := by
        simpa using h
      subst hv
      have h2 : cache_get (cache_put c (i, ns) u) (i, ns) = some u := by
        unfold cache_put
        simp [cache_get]
      have h3 : translate_cached gm (cache_put c (i, ns) u) i ns
          = (.ok u, ((i, ns), u) :: cache_erase (cache_put c (i, ns) u) (i, ns), 0) := by
        unfold translate_cached
        rw [h2]
      rw [h1, h3]
      refine ⟨rfl, rfl, fun hc => ?_⟩
      unfold cache_put
      by_cases hlen : c.length < lru_maxsize
      · simp [hlen]
        omega
      · have h4 : c.dropLast.length = c.length - 1 := c.length_dropLast
        simp [hlen, h4]
        unfold lru_maxsize at hc hlen ⊢
        omega

/-- Witness for C1's amended theorem: a concrete first call on the empty
cache succeeds, and the immediate repeat is a hit with zero backend
fetches. -/
theorem c1_memoized_until_evicted_witness :
    (translate_cached (fun _ => .ok { length := 0, alphabet := "", added := "", aliases := [] })
      (translate_cached (fun _ => .ok { length := 0, alphabet := "", added := "", aliases := [] })
        [] "NM_000551.3" none).2.1 "NM_000551.3" none).1 = .ok [] ∧
    (translate_cached (fun _ => .ok { length := 0, alphabet := "", added := "", aliases := [] })
      (translate_cached (fun _ => .ok { length := 0, alphabet := "", added := "", aliases := [] })
        [] "NM_000551.3" none).2.1 "NM_000551.3" none).2.2 = 0 ∧
    (([] : TransCache).length ≤ lru_maxsize →
      (translate_cached (fun _ => .ok { length := 0, alphabet := "", added := "", aliases := [] })
        [] "NM_000551.3" none).2.1.length ≤ lru_maxsize) :=
  c1_memoized_until_evicted
    (fun _ => .ok { length := 0, alphabet := "", added := "", aliases := [] })
    [] "NM_000551.3" none [] rfl

end VRS

namespace VRS

/-- C4: when the cached `translate_sequence_identifier` fails for a pair
not in the cache, the error (`KeyError`, i.e. NotFound, re-raised verbatim)
is not cached: the cache is left unchanged, and a subsequent call with the
identical pair invokes the wrapped body — and hence the backend metadata
fetch — again, returning whatever the (possibly newly registered) backend
now yields. -/
theorem c4_negative_results_not_cached (gm gm2 : String → Except PyErr Metadata)
    (c : TransCache) (i : String) (ns : Option String) (e : PyErr)
    (h0 : cache_get c (i, ns) = none)
    (h : translate_sequence_identifier gm i ns = .error e) :
    (translate_cached gm c i ns).1 = .error e ∧
    (translate_cached gm c i ns).2.1 = c ∧
    (translate_cached gm2 c i ns).2.2 = 1 ∧
    (translate_cached gm2 c i ns).1 = translate_sequence_identifier gm2 i ns := by
  have h1 : translate_cached gm c i ns = (.error e, c, 1) := by
    unfold translate_cached
    rw [h0, h]
  refine ⟨by rw [h1], by rw [h1], ?_, ?_⟩
  · unfold translate_cached
    rw [h0]
    cases translate_sequence_identifier gm2 i ns <;> rfl
  · unfold translate_cached
    rw [h0]
    cases translate_sequence_identifier gm2 i ns <;> rfl

/-- Witness for C4: a backend that does not know `"id"` makes the cached
translation fail with `KeyError("id")` without touching the cache, and a
re-call against a backend that has since registered `"id"` observes the new
registration. -/
theorem c4_negative_results_not_cached_witness :
    (translate_cached (fun _ => .error (.keyError "id")) [] "id" none).1
      = .error (.keyError "id") ∧
    (translate_cached (fun _ => .error (.keyError "id")) [] "id" none).2.1 = [] ∧
    (translate_cached
      (fun _ => .ok { length := 1, alphabet := "A", added := "", aliases := ["refseq:id"] })
      [] "id" none).2.2 = 1 ∧
    (translate_cached
      (fun _ => .ok { length := 1, alphabet := "A", added := "", aliases := ["refseq:id"] })
      [] "id" none).1
      = translate_sequence_identifier
          (fun _ => .ok { length := 1, alphabet := "A", added := "", aliases := ["refseq:id"] })
          "id" none :=
  c4_negative_results_not_cached
    (fun _ => .error (.keyError "id"))
    (fun _ => .ok { length := 1, alphabet := "A", added := "", aliases := ["refseq:id"] })
    [] "id" none (.keyError "id") rfl rfl

end VRS

namespace VRS

/-- An HTTP response as seen by the adapter: `status_code`, body `text`,
and `json` — the result of `resp.json()`, which is the parsed metadata
record or, for a malformed body, the raised `json` decode error. -/
structure HTTPResponse where
  status_code : Nat
  text : String
  json : Except PyErr Metadata
deriving Repr

/-- `requests.get`: takes the url and the query-parameter dict (parameters
whose value is `None` are omitted from the request by `requests`); yields a
response, or a transport exception such as `requests.ConnectionError`. -/
abbrev HttpGet := String → List (String × Option Int) → Except PyErr HTTPResponse

/-- `requests.Response.raise_for_status`: raises `HTTPError` exactly for
client-error (4xx) and server-error (5xx) status codes. -/
def raise_for_status (resp : HTTPResponse) : Except PyErr Unit :=
  if 400 ≤ resp.status_code ∧ resp.status_code < 600 then .error (.httpError resp.status_code)
  else .ok ()

namespace SeqRepoRESTDataProxy

/-- `SeqRepoRESTDataProxy.rest_version`. -/
def rest_version : String := "1"

/-- `__init__`: `self.base_url = f"{base_url}/{self.rest_version}/"`. -/
def mk_base_url (base_url : String) : String :=
  base_url ++ "/" ++ rest_version ++ "/"

/-- `SeqRepoRESTDataProxy._get_sequence`. -/
def _get_sequence (http_get : HttpGet) (base_url identifier : String)
    (start stop : Option Int) : Except PyErr String :=
  let url := base_url ++ "sequence/" ++ identifier
  let params := [("start", start), ("end", stop)]
  match http_get url params with
  | .error e => .error e
  | .ok resp =>
    if resp.status_code = 404 then .error (.keyError identifier)
    else
      match raise_for_status resp with
      | .error e => .error e
      | .ok _ => .ok resp.text

/-- `SeqRepoRESTDataProxy._get_metadata`. -/
def _get_metadata (http_get : HttpGet) (base_url identifier : String) :
    Except PyErr Metadata :=
  let url := base_url ++ "metadata/" ++ identifier
  match http_get url [] with
  | .error e => .error e
  | .ok resp =>
    if resp.status_code = 404 then .error (.keyError identifier)
    else
      match raise_for_status resp with
      | .error e => .error e
      | .ok _ => resp.json

/-- `_SeqRepoDataProxyBase.get_sequence`, specialised to the REST adapter. -/
def get_sequence (http_get : HttpGet) (base_url identifier : String)
    (start stop : Option Int) : Except PyErr String :=
  _get_sequence http_get base_url identifier start stop

/-- `_SeqRepoDataProxyBase.get_metadata`, specialised to the REST adapter:
re-lists the `aliases` field (`list(a for a in md["aliases"])`, an identity
pass) before returning the record. -/
def get_metadata (http_get : HttpGet) (base_url identifier : String) :
    Except PyErr Metadata :=
  match _get_metadata http_get base_url identifier with
  | .error e => .error e
  | .ok md => .ok { md with aliases := md.aliases.map (fun a => a) }

end SeqRepoRESTDataProxy

end VRS

namespace VRS

/-- C5 counterexample: the claim says every non-success status other than
404 fails with `RemoteError`.  But `raise_for_status` raises only for 4xx
and 5xx, so a non-success status outside that range — here 304 Not
Modified — returns the response body instead of failing: the fetch yields
`.ok "CCTCGCCTCC"`, not a `RemoteError` carrying 304. -/
theorem c5_rest_status_counterexample :
    SeqRepoRESTDataProxy.get_sequence
        (fun _ _ => .ok { status_code := 304, text := "CCTCGCCTCC",
                          json := .error (.valueError "JSONDecodeError") })
        (SeqRepoRESTDataProxy.mk_base_url "http://localhost:5000/seqrepo")
        "NM_000551.3" (some 0) (some 10)
      = .ok "CCTCGCCTCC" := rfl

/-- C5 (amended): for the REST adapter, a 404 response makes both fetches
fail with `KeyError` (NotFound) carrying the identifier; any other 4xx/5xx
status makes both fail with `HTTPError` (RemoteError) carrying that status
(e.g. 500 yields status 500); and any remaining status — 200 in
particular — returns the body verbatim: the response text for the sequence
fetch, the parsed record for the metadata fetch. -/
theorem c5_rest_status_mapping (resp : HTTPResponse) (base i : String)
    (st en : Option Int) (md : Metadata) :
    (resp.status_code = 404 →
      SeqRepoRESTDataProxy.get_sequence (fun _ _ => .ok resp) base i st en
        = .error (.keyError i) ∧
      SeqRepoRESTDataProxy.get_metadata (fun _ _ => .ok resp) base i
        = .error (.keyError i)) ∧
    (resp.status_code ≠ 404 → 400 ≤ resp.status_code → resp.status_code < 600 →
      SeqRepoRESTDataProxy.get_sequence (fun _ _ => .ok resp) base i st en
        = .error (.httpError resp.status_code) ∧
      SeqRepoRESTDataProxy.get_metadata (fun _ _ => .ok resp) base i
        = .error (.httpError resp.status_code)) ∧
    (resp.status_code ≠ 404 → ¬(400 ≤ resp.status_code ∧ resp.status_code < 600) →
      SeqRepoRESTDataProxy.get_sequence (fun _ _ => .ok resp) base i st en = .ok resp.text ∧
      (resp.json = .ok md →
        SeqRepoRESTDataProxy.get_metadata (fun _ _ => .ok resp) base i = .ok md)) := by
  refine ⟨fun h404 => ?_, fun h404 hlo hhi => ?_, fun h404 hrange => ?_⟩
  · constructor
    · unfold SeqRepoRESTDataProxy.get_sequence SeqRepoRESTDataProxy._get_sequence
      simp [h404]
    · unfold SeqRepoRESTDataProxy.get_metadata SeqRepoRESTDataProxy._get_metadata
      simp [h404]
  · constructor
    · unfold SeqRepoRESTDataProxy.get_sequence SeqRepoRESTDataProxy._get_sequence
      simp [h404, raise_for_status, hlo, hhi]
    · unfold SeqRepoRESTDataProxy.get_metadata SeqRepoRESTDataProxy._get_metadata
      simp [h404, raise_for_status, hlo, hhi]
  · constructor
    · unfold SeqRepoRESTDataProxy.get_sequence SeqRepoRESTDataProxy._get_sequence
      simp [h404, raise_for_status, hrange]
    · intro hjson
      unfold SeqRepoRESTDataProxy.get_metadata SeqRepoRESTDataProxy._get_metadata
      simp [h404, raise_for_status, hrange, hjson]

/-- Witness for C5's amended theorem at statuses 404, 500 and 200: the
sequence fetch for `NM_000551.3` with a 200 body `"CCTCGCCTCC"` returns
exactly that string. -/
theorem c5_rest_status_mapping_witness :
    SeqRepoRESTDataProxy.get_sequence
        (fun _ _ => .ok { status_code := 404, text := "", json := .error .indexError })
        "http://b/1/" "NM_000551.3" (some 0) (some 10) = .error (.keyError "NM_000551.3") ∧
    SeqRepoRESTDataProxy.get_sequence
        (fun _ _ => .ok { status_code := 500, text := "", json := .error .indexError })
        "http://b/1/" "NM_000551.3" (some 0) (some 10) = .error (.httpError 500) ∧
    SeqRepoRESTDataProxy.get_sequence
        (fun _ _ => .ok { status_code := 200, text := "CCTCGCCTCC", json := .error .indexError })
        "http://b/1/" "NM_000551.3" (some 0) (some 10) = .ok "CCTCGCCTCC" ∧
    SeqRepoRESTDataProxy.get_metadata
        (fun _ _ => .ok { status_code := 200, text := "",
                          json := .ok { length := 4560, alphabet := "ACGT", added := "",
                                        aliases := ["refseq:NM_000551.3"] } })
        "http://b/1/" "NM_000551.3"
      = .ok { length := 4560, alphabet := "ACGT", added := "", aliases := ["refseq:NM_000551.3"] } :=
  ⟨((c5_rest_status_mapping { status_code := 404, text := "", json := .error .indexError }
      "http://b/1/" "NM_000551.3" (some 0) (some 10)
      { length := 0, alphabet := "", added := "", aliases := [] }).1 rfl).1,
   ((c5_rest_status_mapping { status_code := 500, text := "", json := .error .indexError }
      "http://b/1/" "NM_000551.3" (some 0) (some 10)
      { length := 0, alphabet := "", added := "", aliases := [] }).2.1
      (by decide) (by decide) (by decide)).1,
   ((c5_rest_status_mapping { status_code := 200, text := "CCTCGCCTCC", json := .error .indexError }
      "http://b/1/" "NM_000551.3" (some 0) (some 10)
      { length := 0, alphabet := "", added := "", aliases := [] }).2.2
      (by decide) (by decide)).1,
   ((c5_rest_status_mapping
      { status_code := 200, text := "",
        json := .ok { length := 4560, alphabet := "ACGT", added := "",
                      aliases := ["refseq:NM_000551.3"] } }
      "http://b/1/" "NM_000551.3" (some 0) (some 10)
      { length := 4560, alphabet := "ACGT", added := "", aliases := ["refseq:NM_000551.3"] }).2.2
      (by decide) (by decide)).2 rfl⟩

end VRS

namespace VRS

/-- C9 counterexample: the claim says no backend-specific failure shape —
transport exception included — escapes the Data Proxy contract
untranslated.  But the REST adapter wraps `requests.get` in no handler, so
a transport exception (`requests.ConnectionError`) propagates verbatim out
of `get_metadata`, and it is outside the NotFound / InvalidArgument /
RemoteError / NotImplemented taxonomy. -/
theorem c9_transport_error_escapes_counterexample :
    SeqRepoRESTDataProxy.get_metadata
        (fun _ _ => .error (.transportError "ConnectionError"))
        (SeqRepoRESTDataProxy.mk_base_url "http://localhost:5000/seqrepo") "NM_000551.3"
      = .error (.transportError "ConnectionError") ∧
    in_error_taxonomy (.transportError "ConnectionError") = false :=
  ⟨rfl, rfl⟩

/-- C9 (amended): for the REST adapter, status-carried failures are
translated at the boundary: when the transport succeeds, every failure of
the sequence fetch is in the error taxonomy (`KeyError`/NotFound or
`HTTPError`/RemoteError), and every failure of the metadata fetch is in
the taxonomy or is the response's own `json` decode failure; but a
transport exception propagates to the caller untranslated. -/
theorem c9_boundary_translation (resp : HTTPResponse) (e0 : PyErr)
    (base i : String) (st en : Option Int) (e : PyErr) :
    (SeqRepoRESTDataProxy.get_sequence (fun _ _ => .ok resp) base i st en = .error e →
      in_error_taxonomy e = true) ∧
    (SeqRepoRESTDataProxy.get_metadata (fun _ _ => .ok resp) base i = .error e →
      in_error_taxonomy e = true ∨ resp.json = .error e) ∧
    (SeqRepoRESTDataProxy.get_sequence (fun _ _ => .error e0) base i st en = .error e0) := by
  refine ⟨fun h => ?_, fun h => ?_, rfl⟩
  · unfold SeqRepoRESTDataProxy.get_sequence SeqRepoRESTDataProxy._get_sequence at h
    by_cases h404 : resp.status_code = 404
    · simp [h404] at h
      rw [← h]
      rfl
    · simp [h404, raise_for_status] at h
      by_cases hr : 400 ≤ resp.status_code ∧ resp.status_code < 600
      · simp [hr] at h
        rw [← h]
        rfl
      · simp [hr] at h
  · unfold SeqRepoRESTDataProxy.get_metadata SeqRepoRESTDataProxy._get_metadata at h
    by_cases h404 : resp.status_code = 404
    · simp [h404] at h
      left
      rw [← h]
      rfl
    · simp [h404, raise_for_status] at h
      by_cases hr : 400 ≤ resp.status_code ∧ resp.status_code < 600
      · simp [hr] at h
        left
        rw [← h]
        rfl
      · simp [hr] at h
        cases hj : resp.json with
        | error ej =>
          rw [hj] at h
          simp at h
          right
          exact congrArg Except.error h
        | ok mdj =>
          rw [hj] at h
          simp at h

/-- Witness for C9's amended theorem at a concrete 500 response: the
failure crossing the contract is `HTTPError 500`, inside the taxonomy. -/
theorem c9_boundary_translation_witness :
    in_error_taxonomy (.httpError 500) = true ∧
    SeqRepoRESTDataProxy.get_sequence
        (fun _ _ => .error (.transportError "Timeout"))
        "http://b/1/" "NM_000551.3" none none = .error (.transportError "Timeout") :=
  ⟨(c9_boundary_translation
      { status_code := 500, text := "", json := .error .indexError }
      (.transportError "Timeout") "http://b/1/" "NM_000551.3" none none
      (.httpError 500)).1 rfl,
   (c9_boundary_translation
      { status_code := 500, text := "", json := .error .indexError }
      (.transportError "Timeout") "http://b/1/" "NM_000551.3" none none
      (.httpError 500)).2.2⟩

end VRS

namespace VRS

/-- A row returned by `find_aliases(...).fetchone()`: carries the internal
sequence key. -/
structure AliasRow where
  seq_id : String
deriving DecidableEq, Repr

/-- The record returned by `sequences.fetch_seqinfo`: length, alphabet and
the added-timestamp (kept abstract as the string `isoformat` receives). -/
structure SeqInfo where
  len : Nat
  alpha : String
  added : String
deriving DecidableEq, Repr

/-- A row returned by `aliases.fetch_aliases`: a namespace/alias pair.
(`nspace`/`alias_v` because `namespace` and `alias` are reserved words in
Lean.) -/
structure AliasRec where
  nspace : String
  alias_v : String
deriving DecidableEq, Repr

/-- The pre-opened local seqrepo handle, as the capability set
`SeqRepoDataProxy` consumes: alias lookup returning the first matching row
or `none`, seqinfo and alias-list lookup by internal key, and the
range-bounded `fetch`, which raises `KeyError` itself for unknown
identifiers. -/
structure SeqRepo where
  find_aliases : String → String → Option AliasRow
  fetch_seqinfo : String → SeqInfo
  fetch_aliases : String → List AliasRec
  fetch : String → Option Int → Option Int → Except PyErr String

/-- Split a character list at every colon. -/
def split_colon_chars : List Char → List (List Char)
  | [] => [[]]
  | c :: rest =>
    match split_colon_chars rest with
    | [] => if c = ':' then [[], []] else [[c]]
    | p :: ps => if c = ':' then [] :: p :: ps else (c :: p) :: ps

/-- `coerce_namespace(identifier).split(":", 2)` followed by the two-name
unpacking `ns, a = ...`: yields the two parts when the coerced string holds
exactly one colon, and raises `ValueError` (Python's unpacking error) on
any other part count — with `maxsplit = 2`, the unpacking succeeds exactly
for a single colon. -/
def split_colon_2 (s : String) : Except PyErr (String × String) :=
  match split_colon_chars s.data with
  | [ns, a] => .ok (String.mk ns, String.mk a)
  | _ => .error (.valueError "unpacking mismatch")

namespace SeqRepoDataProxy

/-- `SeqRepoDataProxy._get_sequence`: delegates to `sr.fetch`, which raises
`KeyError` if the identifier is not found. -/
def _get_sequence (sr : SeqRepo) (identifier : String)
    (start stop : Option Int) : Except PyErr String :=
  sr.fetch identifier start stop

/-- `SeqRepoDataProxy._get_metadata`, with the external collaborators
`coerce_namespace` (fallible namespace coercion) and `isoformat`
(timestamp formatting) passed as parameters. -/
def _get_metadata (coerce_namespace : String → Except PyErr String)
    (isoformat : String → String) (sr : SeqRepo) (identifier : String) :
    Except PyErr Metadata :=
  match coerce_namespace identifier with
  | .error e => .error e
  | .ok coerced =>
    match split_colon_2 coerced with
    | .error e => .error e
    | .ok (ns, a) =>
      match sr.find_aliases ns a with
      | none => .error (.keyError identifier)
      | some r =>
        let seqinfo := sr.fetch_seqinfo r.seq_id
        let aliases := sr.fetch_aliases r.seq_id
        .ok { length := seqinfo.len, alphabet := seqinfo.alpha,
              added := isoformat seqinfo.added,
              aliases := aliases.map (fun al => al.nspace ++ ":" ++ al.alias_v) }

/-- `_SeqRepoDataProxyBase.get_sequence`, specialised to the local adapter. -/
def get_sequence (sr : SeqRepo) (identifier : String)
    (start stop : Option Int) : Except PyErr String :=
  _get_sequence sr identifier start stop

/-- `_SeqRepoDataProxyBase.get_metadata`, specialised to the local adapter:
re-lists the `aliases` field (an identity pass) before returning. -/
def get_metadata (coerce_namespace : String → Except PyErr String)
    (isoformat : String → String) (sr : SeqRepo) (identifier : String) :
    Except PyErr Metadata :=
  match _get_metadata coerce_namespace isoformat sr identifier with
  | .error e => .error e
  | .ok md => .ok { md with aliases := md.aliases.map (fun a => a) }

end SeqRepoDataProxy

end VRS

namespace VRS

/-- C6: on an identifier unknown to the backend, `get_metadata` and
`get_sequence` both fail with `KeyError` (NotFound) in every backend
implementation — the local adapter (no alias row found; the store's own
`KeyError` from `fetch` passed through) and the REST adapter (HTTP 404 on
both endpoints). -/
theorem c6_unknown_identifier_not_found
    (cn : String → Except PyErr String) (iso : String → String) (sr : SeqRepo)
    (resp : HTTPResponse) (base i coerced ns a : String) (st en : Option Int)
    (h1 : cn i = .ok coerced) (h2 : split_colon_2 coerced = .ok (ns, a))
    (h3 : sr.find_aliases ns a = none)
    (h4 : sr.fetch i st en = .error (.keyError i))
    (h5 : resp.status_code = 404) :
    SeqRepoDataProxy.get_metadata cn iso sr i = .error (.keyError i) ∧
    SeqRepoDataProxy.get_sequence sr i st en = .error (.keyError i) ∧
    SeqRepoRESTDataProxy.get_metadata (fun _ _ => .ok resp) base i = .error (.keyError i) ∧
    SeqRepoRESTDataProxy.get_sequence (fun _ _ => .ok resp) base i st en
      = .error (.keyError i) := by
  refine ⟨?_, ?_, ?_, ?_⟩
  · unfold SeqRepoDataProxy.get_metadata SeqRepoDataProxy._get_metadata
    simp [h1, h2, h3]
  · unfold SeqRepoDataProxy.get_sequence SeqRepoDataProxy._get_sequence
    exact h4
  · unfold SeqRepoRESTDataProxy.get_metadata SeqRepoRESTDataProxy._get_metadata
    simp [h5]
  · unfold SeqRepoRESTDataProxy.get_sequence SeqRepoRESTDataProxy._get_sequence
    simp [h5]

/-- Witness for C6 at a concrete empty store and a concrete 404 response,
each queried for `"no-such-id"`. -/
theorem c6_unknown_identifier_not_found_witness :
    SeqRepoDataProxy.get_metadata (fun _ => .ok "refseq:no-such-id") (fun s => s)
        { find_aliases := fun _ _ => none,
          fetch_seqinfo := fun _ => { len := 0, alpha := "", added := "" },
          fetch_aliases := fun _ => [], fetch := fun s _ _ => .error (.keyError s) }
        "no-such-id" = .error (.keyError "no-such-id") ∧
    SeqRepoDataProxy.get_sequence
        { find_aliases := fun _ _ => none,
          fetch_seqinfo := fun _ => { len := 0, alpha := "", added := "" },
          fetch_aliases := fun _ => [], fetch := fun s _ _ => .error (.keyError s) }
        "no-such-id" none none = .error (.keyError "no-such-id") ∧
    SeqRepoRESTDataProxy.get_metadata
        (fun _ _ => .ok { status_code := 404, text := "", json := .error .indexError })
        "http://b/1/" "no-such-id" = .error (.keyError "no-such-id") ∧
    SeqRepoRESTDataProxy.get_sequence
        (fun _ _ => .ok { status_code := 404, text := "", json := .error .indexError })
        "http://b/1/" "no-such-id" none none = .error (.keyError "no-such-id") :=
  c6_unknown_identifier_not_found
    (fun _ => .ok "refseq:no-such-id") (fun s => s)
    { find_aliases := fun _ _ => none,
      fetch_seqinfo := fun _ => { len := 0, alpha := "", added := "" },
      fetch_aliases := fun _ => [], fetch := fun s _ _ => .error (.keyError s) }
    { status_code := 404, text := "", json := .error .indexError }
    "http://b/1/" "no-such-id" "refseq:no-such-id" "refseq" "no-such-id" none none
    rfl rfl rfl rfl rfl

end VRS

namespace VRS

/-- A backend invocation made through a Data Proxy, for stating which
fetches an operation performs. -/
inductive Call where
  | getMetadata (identifier : String)
  | getSequence (identifier : String) (start stop : Option Int)
deriving DecidableEq, Repr

/-- The Data Proxy contract a `SequenceProxy` is bound to: `get_metadata`
and `get_sequence` of any backend implementation. -/
structure DataProxy where
  get_metadata : String → Except PyErr Metadata
  get_sequence : String → Option Int → Option Int → Except PyErr String

/-- An invocation of `dp.get_metadata`, recorded in the call trace. -/
def DataProxy.call_get_metadata (dp : DataProxy) (identifier : String) :
    Except PyErr Metadata × List Call :=
  (dp.get_metadata identifier, [Call.getMetadata identifier])

/-- An invocation of `dp.get_sequence`, recorded in the call trace. -/
def DataProxy.call_get_sequence (dp : DataProxy) (identifier : String)
    (start stop : Option Int) : Except PyErr String × List Call :=
  (dp.get_sequence identifier start stop, [Call.getSequence identifier start stop])

/-- `SequenceProxy` state after a successful construction: the bound proxy,
the alias it was constructed with, and the metadata record cached by
`__init__` in `self._md`. -/
structure SequenceProxy where
  dp : DataProxy
  alias_v : String
  md : Metadata

/-- `SequenceProxy.__init__(dp, alias)`: stores `dp` and `alias` and runs
`self._md = self.dp.get_metadata(self.alias)` — its only backend call.
Returns the constructed instance (or the propagated fetch failure) and the
trace of backend calls the construction performed. -/
def SequenceProxy.init (dp : DataProxy) (alias_v : String) :
    Except PyErr SequenceProxy × List Call :=
  match dp.call_get_metadata alias_v with
  | (.error e, t) => (.error e, t)
  | (.ok md, t) => (.ok ⟨dp, alias_v, md⟩, t)

/-- `SequenceProxy.__len__`: `return self._md["length"]` — reads the cached
record, makes no backend call. -/
def SequenceProxy.len (sp : SequenceProxy) : Nat × List Call :=
  (sp.md.length, [])

/-- `SequenceProxy.__str__`: fetches the whole sequence on demand. -/
def SequenceProxy.str (sp : SequenceProxy) : Except PyErr String × List Call :=
  sp.dp.call_get_sequence sp.alias_v none none

/-- `SequenceProxy.__reversed__`: unconditionally raises
`NotImplementedError`. -/
def SequenceProxy.reversed (_sp : SequenceProxy) : Except PyErr Unit :=
  .error (.notImplementedError "Reversed iteration of a SequenceProxy is not implemented")

/-- A `__getitem__` key: either an integer index or a slice with optional
start/stop/step, mirroring Python's `int` and `slice` cases. -/
inductive SKey where
  | int (i : Int)
  | slice (start stop step : Option Int)
deriving DecidableEq, Repr

/-- The slice path of `SequenceProxy.__getitem__`: a slice with any
explicit step raises `ValueError`; a stepless slice delegates to
`self.dp.get_sequence(self.alias, key.start, key.stop)`. -/
def SequenceProxy.getitem_slice (sp : SequenceProxy)
    (start stop step : Option Int) : Except PyErr String :=
  if step.isSome then
    .error (.valueError "Only contiguous sequence slices are supported")
  else
    sp.dp.get_sequence sp.alias_v start stop

/-- `SequenceProxy.__getitem__`: an integer key `i` is first converted to
`slice(i, i + 1)` (step `None`), then handled by the slice path. -/
def SequenceProxy.getitem (sp : SequenceProxy) (key : SKey) : Except PyErr String :=
  match key with
  | .int i => sp.getitem_slice (some i) (some (i + 1)) none
  | .slice start stop step => sp.getitem_slice start stop step

/-- C7: for a sequence proxy `sp` bound to `(dp, identifier)`: the stepless
slice `sp[a:b]` equals `dp.get_sequence(identifier, a, b)`; an integer
index `sp[i]` equals `sp[i:i+1]`; a non-unit-step slice `sp[a:b:2]` fails
with `ValueError` (InvalidArgument); and `reversed(sp)` fails with
`NotImplementedError`. -/
theorem c7_getitem_contract (sp : SequenceProxy) (a b i : Int) :
    sp.getitem (SKey.slice (some a) (some b) none)
      = sp.dp.get_sequence sp.alias_v (some a) (some b) ∧
    sp.getitem (SKey.int i) = sp.getitem (SKey.slice (some i) (some (i + 1)) none) ∧
    sp.getitem (SKey.slice (some a) (some b) (some 2))
      = .error (.valueError "Only contiguous sequence slices are supported") ∧
    sp.reversed
      = .error (.notImplementedError "Reversed iteration of a SequenceProxy is not implemented") :=
  ⟨rfl, rfl, rfl, rfl⟩

/-- C10: `SequenceProxy.__getitem__` rejects every slice whose step is
explicitly given — including the unit step `sp[a:b:1]`, which denotes the
same contiguous range as `sp[a:b]` — with `ValueError` (InvalidArgument);
only slices whose step is absent are accepted and delegated to the bound
proxy. -/
theorem c10_explicit_step_rejected (sp : SequenceProxy) (a b : Option Int) (s : Int) :
    sp.getitem (SKey.slice a b (some s))
      = .error (.valueError "Only contiguous sequence slices are supported") ∧
    sp.getitem (SKey.slice a b (some 1))
      = .error (.valueError "Only contiguous sequence slices are supported") ∧
    sp.getitem (SKey.slice a b none) = sp.dp.get_sequence sp.alias_v a b :=
  ⟨rfl, rfl, rfl⟩

/-- C8: constructing a `SequenceProxy` performs exactly one backend call —
the metadata fetch for the bound alias, never a sequence fetch; a backend
`KeyError` (unknown identifier) propagates as the construction's failure;
on success the instance caches the fetched record, and `__len__` returns
that record's `length` with an empty backend-call trace. -/
theorem c8_construction_effects (dp : DataProxy) (alias_v : String) :
    (SequenceProxy.init dp alias_v).2 = [Call.getMetadata alias_v] ∧
    (dp.get_metadata alias_v = .error (.keyError alias_v) →
      (SequenceProxy.init dp alias_v).1 = .error (.keyError alias_v)) ∧
    (∀ md : Metadata, dp.get_metadata alias_v = .ok md →
      (SequenceProxy.init dp alias_v).1 = .ok ⟨dp, alias_v, md⟩ ∧
      SequenceProxy.len ⟨dp, alias_v, md⟩ = (md.length, ([] : List Call))) := by
  refine ⟨?_, fun h => ?_, fun md h => ⟨?_, rfl⟩⟩
  · unfold SequenceProxy.init DataProxy.call_get_metadata
    cases dp.get_metadata alias_v <;> rfl
  · unfold SequenceProxy.init DataProxy.call_get_metadata
    rw [h]
  · unfold SequenceProxy.init DataProxy.call_get_metadata
    rw [h]

/-- Witness for C8: a concrete proxy whose backend knows `"refseq:X"` with
length 7 (construction succeeds, length 7, trace is exactly one metadata
fetch), and one that knows nothing (construction fails with `KeyError`). -/
theorem c8_construction_effects_witness :
    (SequenceProxy.init
      { get_metadata := fun _ => .ok { length := 7, alphabet := "ACGT", added := "",
                                       aliases := ["refseq:X"] },
        get_sequence := fun _ _ _ => .ok "ACGTACG" } "refseq:X").2
      = [Call.getMetadata "refseq:X"] ∧
    (SequenceProxy.init
      { get_metadata := fun _ => .ok { length := 7, alphabet := "ACGT", added := "",
                                       aliases := ["refseq:X"] },
        get_sequence := fun _ _ _ => .ok "ACGTACG" } "refseq:X").1
      = .ok ⟨{ get_metadata := fun _ => .ok { length := 7, alphabet := "ACGT", added := "",
                                              aliases := ["refseq:X"] },
               get_sequence := fun _ _ _ => .ok "ACGTACG" }, "refseq:X",
             { length := 7, alphabet := "ACGT", added := "", aliases := ["refseq:X"] }⟩ ∧
    SequenceProxy.len ⟨{ get_metadata := fun _ => .ok { length := 7, alphabet := "ACGT", added := "",
                                                        aliases := ["refseq:X"] },
                         get_sequence := fun _ _ _ => .ok "ACGTACG" }, "refseq:X",
                       { length := 7, alphabet := "ACGT", added := "", aliases := ["refseq:X"] }⟩
      = (7, ([] : List Call)) ∧
    (SequenceProxy.init
      { get_metadata := fun s => .error (.keyError s),
        get_sequence := fun s _ _ => .error (.keyError s) } "no-such-id").1
      = .error (.keyError "no-such-id") :=
  ⟨(c8_construction_effects
      { get_metadata := fun _ => .ok { length := 7, alphabet := "ACGT", added := "",
                                       aliases := ["refseq:X"] },
        get_sequence := fun _ _ _ => .ok "ACGTACG" } "refseq:X").1,
   ((c8_construction_effects
      { get_metadata := fun _ => .ok { length := 7, alphabet := "ACGT", added := "",
                                       aliases := ["refseq:X"] },
        get_sequence := fun _ _ _ => .ok "ACGTACG" } "refseq:X").2.2
      { length := 7, alphabet := "ACGT", added := "", aliases := ["refseq:X"] } rfl).1,
   ((c8_construction_effects
      { get_metadata := fun _ => .ok { length := 7, alphabet := "ACGT", added := "",
                                       aliases := ["refseq:X"] },
        get_sequence := fun _ _ _ => .ok "ACGTACG" } "refseq:X").2.2
      { length := 7, alphabet := "ACGT", added := "", aliases := ["refseq:X"] } rfl).2,
   (c8_construction_effects
      { get_metadata := fun s => .error (.keyError s),
        get_sequence := fun s _ _ => .error (.keyError s) } "no-such-id").2.1 rfl⟩

end VRS
